import Mathlib

/-!
Verification development for the Ai-Interview-Backend repository.

The Python backend (FastAPI + MongoDB + an LLM service) is shallowly
embedded: MongoDB collections become Lean lists of document structures,
`ObjectId`s become `Nat`, timestamps become `Int` (seconds), and each
controller function becomes a pure Lean function that threads the
database state explicitly and returns `Except`-style results mirroring
`HTTPException`/`error_response`.  External effects (the Gemini LLM call,
the Tavily search pipeline, password hashing, the Python `json` module)
are passed in as explicit parameters, so every controller's own control
flow is modelled exactly as written in the source.
-/

/-- An HTTP error outcome: `HTTPException(status, detail)` or
`error_response(status, message)` in the source. -/
structure HttpErr where
  status : Nat
  detail : String
deriving DecidableEq, Repr

/-! ## `controllers/system_controller.py` — request-latency log -/

/-- One entry of the module-level `_request_history` list
(`system_controller.py`, `track_request`). -/
structure RequestRecord where
  timestamp : Int
  response_time_ms : Int
  is_error : Bool
  endpoint : String
deriving DecidableEq, Repr

/-- `track_request` (`system_controller.py` lines 20-33): append the new
record, then `if len(_request_history) > 1000: _request_history.pop(0)`.
`pop(0)` removes the front (oldest) element, i.e. `List.drop 1`. -/
def track_request (history : List RequestRecord) (r : RequestRecord) :
    List RequestRecord :=
  let h := history ++ [r]
  if h.length > 1000 then h.drop 1 else h

/-! ## Document structures shared by the session / question / quiz code -/

/-- A `sessions` collection document, as built in
`session_controller.create_new_session`. -/
structure SessionDoc where
  id : Nat
  user : Nat
  role : String
  experience : Int
  topicsToFocus : String
  description : String
  questions : List Nat
  createdAt : Int
  updatedAt : Int
deriving DecidableEq, Repr

/-- A `questions` collection document, as built in
`session_controller.create_new_session`. -/
structure QuestionDoc where
  id : Nat
  session : Nat
  question : String
  answer : String
  isPinned : Bool
  createdAt : Int
  updatedAt : Int
deriving DecidableEq, Repr

/-- A quiz question as parsed from the LLM output in
`generate_quiz_service`: a JSON dict whose relevant keys may each be
absent (`none`) or present.  The validation loop checks presence with
`key in q` and reads values with `q.get(key, default)`. -/
structure RawQuizQuestion where
  question : Option String
  options : Option (List String)
  correctAnswer : Option Int
  explanation : Option String
deriving DecidableEq, Repr

/-- One element of the `results` array built by `submit_quiz_service`. -/
structure ResultItem where
  question : String
  options : List String
  userAnswer : Option Int
  correctAnswer : Option Int
  isCorrect : Bool
  explanation : String
  timeSpentOnQuestion : Int
deriving DecidableEq, Repr

/-- The `sessionInfo` sub-document stored inside a quiz document and
echoed in the generation response. -/
structure SessionInfo where
  role : String
  experience : Int
  topics : String
deriving DecidableEq, Repr

/-- A `quizzes` collection document, as created by `generate_quiz_service`
and mutated once by `submit_quiz_service`.  Fields that are `None` until
submission are `Option`s; fields first added by the submission `$set`
(`percentage`, `results`, `feedback`, `completedAt`, `submissionType`)
are modelled as `Option`/empty until then. -/
structure QuizDoc where
  id : Nat
  sessionId : Nat
  userId : Nat
  questions : List RawQuizQuestion
  totalQuestions : Nat
  timeLimitPerQuestion : Int
  totalTimeLimit : Int
  sessionInfo : SessionInfo
  status : String
  score : Option Int
  submittedAt : Option Int
  timeSpent : Option Int
  userAnswers : List (Option Int)
  questionStartTimes : List (Option Int)
  currentQuestion : Nat
  percentage : Option ℚ
  results : List ResultItem
  feedback : Option String
  completedAt : Option Int
  submissionType : Option String
  createdAt : Int
deriving DecidableEq, Repr

/-- The three collections touched by session deletion. -/
structure SessionDB where
  sessions : List SessionDoc
  questions : List QuestionDoc
  quizzes : List QuizDoc
deriving DecidableEq, Repr

/-- Mongo `find_one({"_id": sid})` on the sessions list. -/
def sessions_find_one (db : List SessionDoc) (sid : Nat) : Option SessionDoc :=
  db.find? (fun s => s.id = sid)

/-! ## `controllers/session_controller.py` — `delete_session` -/

/-- `delete_session` (`session_controller.py` lines 106-130): look the
session up, check ownership, `questions.delete_many({"session": sid})`,
`sessions.delete_one({"_id": sid})`.  The `quizzes` collection is not
touched by this function. -/
def delete_session (db : SessionDB) (sessionId : Nat) (userId : Nat) :
    SessionDB × Except HttpErr String :=
  match sessions_find_one db.sessions sessionId with
  | none => (db, .error ⟨404, "Session not found"⟩)
  | some session =>
    if session.user ≠ userId then
      (db, .error ⟨401, "Not authorized to delete this session"⟩)
    else
      ({ db with
          questions := db.questions.filter (fun q => ¬ q.session = sessionId),
          sessions := db.sessions.eraseP (fun s => s.id = sessionId) },
        .ok "Session deleted successfully")

/-- `admin_delete_session` (`admin_controller.py` lines 1180-1200):
`check_admin_access` (403 unless the caller's role is "admin"), look the
session up, `questions.delete_many`, `sessions.delete_one`; no ownership
check and, again, no quiz deletion. -/
def admin_delete_session (db : SessionDB) (sessionId : Nat)
    (callerIsAdmin : Bool) : SessionDB × Except HttpErr String :=
  if ¬ callerIsAdmin then (db, .error ⟨403, "Admin access required"⟩)
  else
    match sessions_find_one db.sessions sessionId with
    | none => (db, .error ⟨404, "Session not found"⟩)
    | some _ =>
      ({ db with
          questions := db.questions.filter (fun q => ¬ q.session = sessionId),
          sessions := db.sessions.eraseP (fun s => s.id = sessionId) },
        .ok "Session deleted successfully")

/-! ## `utils/gemini_service.py` — JSON recovery parser

Python values parsed from JSON are modelled by `PyJson`.  The Python
standard-library `json.loads` is external to the repository, so
`parse_gemini_json_response` takes the decoder as an explicit parameter
`loads : String → Option PyJson` (`none` models `json.JSONDecodeError`);
`json_loads_strlit` below is a concrete faithful model of `json.loads`
on the fragment of top-level JSON string literals. -/

/-- Python `str.strip` / `re` whitespace over ASCII. -/
def isReWs (c : Char) : Bool :=
  c = ' ' || c = '\t' || c = '\n' || c = '\r' || c = Char.ofNat 11 || c = Char.ofNat 12

/-- Python `str.strip()`: drop leading and trailing whitespace. -/
def py_strip (s : String) : String :=
  String.mk (((s.toList.dropWhile isReWs).reverse.dropWhile isReWs).reverse)

/-- Python `str.startswith`. -/
def py_startsWith (s pat : String) : Bool :=
  pat.toList.isPrefixOf s.toList

/-- Python `str.endswith`. -/
def py_endsWith (s pat : String) : Bool :=
  pat.toList.isSuffixOf s.toList

/-- Python `s[n:]`. -/
def py_drop (s : String) (n : Nat) : String :=
  String.mk (s.toList.drop n)

/-- Python `s[:-n]`. -/
def py_dropRight (s : String) (n : Nat) : String :=
  String.mk (s.toList.take (s.toList.length - n))

/-- Strip `pat` from the front of `l`, when it is a prefix. -/
def drop_pat : List Char → List Char → Option (List Char)
  | [], l => some l
  | _ :: _, [] => none
  | p :: ps, c :: cs => if p = c then drop_pat ps cs else none

/-- Left-to-right non-overlapping replacement of the non-empty pattern
`pat` by `rep`, as in Python `str.replace`; the fuel (instantiated with
the input length, which bounds the number of steps) keeps the recursion
structural. -/
def replace_fuel (pat rep : List Char) : Nat → List Char → List Char
  | 0, l => l
  | _ + 1, [] => []
  | fuel + 1, c :: rest =>
    match drop_pat pat (c :: rest) with
    | some rem => rep ++ replace_fuel pat rep fuel rem
    | none => c :: replace_fuel pat rep fuel rest

/-- Python `str.replace` (the repository only uses it with the fixed
non-empty pattern backslash-`n`; an empty pattern is the identity
here). -/
def py_replace (s pat rep : String) : String :=
  match pat.toList with
  | [] => s
  | p0 :: ps => String.mk (replace_fuel (p0 :: ps) rep.toList s.toList.length s.toList)

/-- A parsed Python JSON value (floats are not needed by any claim). -/
inductive PyJson where
  | null : PyJson
  | bool (b : Bool) : PyJson
  | int (n : Int) : PyJson
  | str (s : String) : PyJson
  | arr (xs : List PyJson) : PyJson
  | obj (fields : List (String × PyJson)) : PyJson
deriving Repr

mutual

/-- `_fix_escaped_newlines_in_parsed` (`gemini_service.py` lines 117-128):
recursively replace the two-character sequence backslash-`n` by a newline
inside every string value. -/
def fix_escaped_newlines_in_parsed : PyJson → PyJson
  | .null => .null
  | .bool b => .bool b
  | .int n => .int n
  | .str s => .str (py_replace s "\\n" "\n")
  | .arr xs => .arr (fixNewlinesList xs)
  | .obj fs => .obj (fixNewlinesFields fs)

/-- List case of `_fix_escaped_newlines_in_parsed`. -/
def fixNewlinesList : List PyJson → List PyJson
  | [] => []
  | x :: xs => fix_escaped_newlines_in_parsed x :: fixNewlinesList xs

/-- Dict case of `_fix_escaped_newlines_in_parsed`. -/
def fixNewlinesFields : List (String × PyJson) → List (String × PyJson)
  | [] => []
  | (k, v) :: fs => (k, fix_escaped_newlines_in_parsed v) :: fixNewlinesFields fs

end

/-- The markdown-fence stripping step of `parse_gemini_json_response`
(`gemini_service.py` lines 77-85): drop a leading three-backtick marker
(with optional `json` tag) and a trailing three-backtick marker, calling
`.strip()` after each removal exactly as the source does. -/
def strip_code_fences (text : String) : String :=
  let t :=
    if py_startsWith text "```json" then py_strip (py_drop text 7)
    else if py_startsWith text "```" then py_strip (py_drop text 3)
    else text
  if py_endsWith t "```" then py_strip (py_dropRight t 3) else t

/-- The left-brace character, `Char.ofNat 123`. -/
def lbrace : Char := Char.ofNat 123

/-- The right-brace character, `Char.ofNat 125`. -/
def rbrace : Char := Char.ofNat 125

/-- First index `≥ i` whose character satisfies `p`. -/
def idxFrom (cs : List Char) (i : Nat) (p : Char → Bool) : Option Nat :=
  ((cs.drop i).findIdx? p).map (· + i)

/-- Last index of `c` in `cs`. -/
def lastIdxOf (cs : List Char) (c : Char) : Option Nat :=
  (cs.reverse.findIdx? (· = c)).map (fun k => cs.length - 1 - k)

/-- The inclusive slice `cs[i..j]` as a string. -/
def sliceStr (cs : List Char) (i j : Nat) : String :=
  String.mk ((cs.drop i).take (j + 1 - i))

/-- `re.search(pattern, text, re.DOTALL)` for the greedy pattern
"open `.*` close": the match runs from the first occurrence of `openC`
to the last occurrence of `closeC`, provided the latter comes after the
former (leftmost start, greedy dot-star). -/
def search_open_close (cs : List Char) (openC closeC : Char) : Option String :=
  match cs.findIdx? (· = openC), lastIdxOf cs closeC with
  | some i, some j => if i < j then some (sliceStr cs i j) else none
  | _, _ => none

/-- For the array-of-objects pattern: a completion at index `m` is a
right brace at `m` followed by whitespace and then a right bracket,
returning that bracket's index. -/
def arrayObjClose (cs : List Char) (m : Nat) : Option Nat :=
  if cs.getD m ' ' = rbrace then
    match idxFrom cs (m + 1) (fun c => ! isReWs c) with
    | some j => if cs.getD j ' ' = ']' then some j else none
    | none => none
  else none

/-- The rightmost completion index pair `(m, j)` with `m ≥ k + 1`
(greedy `.*` backtracks from the far end). -/
def lastArrayObjClose (cs : List Char) (k : Nat) : Option (Nat × Nat) :=
  (List.range cs.length).reverse.findSome? (fun m =>
    if k + 1 ≤ m then (arrayObjClose cs m).map (fun j => (m, j)) else none)

/-- `re.search` for the first pattern of `parse_gemini_json_response`,
a JSON array of objects: left bracket, whitespace, left brace, greedy
anything, right brace, whitespace, right bracket (leftmost match start,
greedy interior). -/
def search_array_of_objects (cs : List Char) : Option String :=
  (List.range cs.length).findSome? (fun i =>
    if cs.getD i ' ' = '[' then
      match idxFrom cs (i + 1) (fun c => ! isReWs c) with
      | some k =>
        if cs.getD k ' ' = lbrace then
          (lastArrayObjClose cs k).map (fun mj => sliceStr cs i mj.2)
        else none
      | none => none
    else none)

/-- The candidate substrings produced by the three regex patterns of
`parse_gemini_json_response` (lines 96-100), in the order tried:
array-of-objects, object, simple array. -/
def regex_candidates (text : String) : List String :=
  let cs := text.toList
  [search_array_of_objects cs,
   search_open_close cs lbrace rbrace,
   search_open_close cs '[' ']'].filterMap id

/-- `parse_gemini_json_response` (`gemini_service.py` lines 61-114):
reject empty input; try a direct `json.loads` on the stripped text; on
failure strip markdown code fences and retry; on failure search for an
embedded JSON array or object with the three regexes and parse the first
parsable match; otherwise raise.  Every successful parse is
post-processed by `_fix_escaped_newlines_in_parsed` when `fix_newlines`
is set; its default is `True`, and callers either use the default or
pass the flag explicitly (`study_material_controller.py` passes `False`
at line 317 and `True` at line 348). -/
def parse_gemini_json_response (loads : String → Option PyJson)
    (response_text : String) (fix_newlines : Bool := true) :
    Except String PyJson :=
  if response_text = "" ∨ py_strip response_text = "" then
    .error "Empty response from Gemini"
  else
    let text := py_strip response_text
    match loads text with
    | some parsed =>
      .ok (if fix_newlines then fix_escaped_newlines_in_parsed parsed else parsed)
    | none =>
      let text := strip_code_fences text
      match loads text with
      | some parsed =>
        .ok (if fix_newlines then fix_escaped_newlines_in_parsed parsed else parsed)
      | none =>
        match (regex_candidates text).findSome? loads with
        | some parsed =>
          .ok (if fix_newlines then fix_escaped_newlines_in_parsed parsed else parsed)
        | none => .error "Could not parse JSON from Gemini response"

/-- One JSON string escape, as decoded by Python `json.loads`
( `\u` escapes are outside the modelled fragment and yield `none`). -/
def decode_json_escape (c : Char) : Option Char :=
  if c = '"' then some '"'
  else if c = '\\' then some '\\'
  else if c = '/' then some '/'
  else if c = 'n' then some '\n'
  else if c = 't' then some '\t'
  else if c = 'r' then some '\r'
  else if c = 'b' then some (Char.ofNat 8)
  else if c = 'f' then some (Char.ofNat 12)
  else none

/-- Decode the body of a JSON string literal up to its closing quote,
returning the decoded characters and the rest of the input. -/
def decode_json_string_body : List Char → Option (List Char × List Char)
  | [] => none
  | '"' :: rest => some ([], rest)
  | '\\' :: c :: rest =>
    match decode_json_escape c with
    | some d =>
      match decode_json_string_body rest with
      | some (s, r) => some (d :: s, r)
      | none => none
    | none => none
  | c :: rest =>
    if c.toNat < 32 then none
    else
      match decode_json_string_body rest with
      | some (s, r) => some (c :: s, r)
      | none => none

/-- A faithful model of the Python standard library `json.loads` on the
fragment consisting of a single top-level JSON string literal without
`\u` escapes; every other input is outside the fragment (`none`). -/
def json_loads_strlit (s : String) : Option PyJson :=
  match s.toList with
  | '"' :: rest =>
    match decode_json_string_body rest with
    | some (chars, []) => some (.str (String.mk chars))
    | _ => none
  | _ => none

/-! ## `controllers/quiz_controller.py` — quiz generation and submission

The Gemini call plus JSON parse is passed in as an explicit outcome
parameter: `.error e` models any exception raised while calling the LLM
or parsing its output, `.ok none` models a parse result that is not a
list, and `.ok (some qs)` models a parsed list of question dicts. -/

/-- Replace the first element satisfying `p` (Mongo `update_one` with a
`$set`). -/
def update_first (p : α → Bool) (f : α → α) : List α → List α
  | [] => []
  | x :: rest => if p x then f x :: rest else x :: update_first p f rest

/-- `TIME_PER_QUESTION = 180` seconds (`quiz_controller.py` line 65). -/
def TIME_PER_QUESTION : Int := 180

/-- The per-question validation of `generate_quiz_service` (lines 56-62):
all four keys present, exactly 4 options, `correctAnswer` between 0 and 3
(reads use `q.get("options", [])` and `q.get("correctAnswer", -1)`). -/
def quiz_question_shape_ok (q : RawQuizQuestion) : Bool :=
  q.question.isSome && q.options.isSome && q.correctAnswer.isSome &&
    q.explanation.isSome &&
  ((q.options.getD []).length == 4) &&
  (decide (0 ≤ q.correctAnswer.getD (-1)) && decide (q.correctAnswer.getD (-1) ≤ 3))

/-- The whole validation loop over the parsed LLM questions. -/
def validate_quiz_questions (qs : List RawQuizQuestion) : Bool :=
  qs.all quiz_question_shape_ok

/-- A quiz question as it appears in the generation HTTP response
(lines 95-100): only the text and the options, no correct answer and no
explanation. -/
structure QuizQuestionPublic where
  question : String
  options : List String
deriving DecidableEq, Repr

/-- The HTTP response of `generate_quiz_service` (lines 102-111). -/
structure GenerateQuizResponse where
  success : Bool
  quizId : Nat
  questions : List QuizQuestionPublic
  totalQuestions : Nat
  timeLimitPerQuestion : Int
  totalTimeLimit : Int
  sessionInfo : SessionInfo
  createdAt : Int
deriving DecidableEq, Repr

/-- `generate_quiz_service` (`quiz_controller.py` lines 17-117): find the
session, fetch up to 20 of its questions as context, run the LLM, check
the parsed output is a list whose members pass `quiz_question_shape_ok`,
insert the quiz document, and answer with the questions stripped down to
text and options.  `new_id` is the `ObjectId` Mongo assigns on insert,
`now` the wall clock.  Validation errors surface as the generic 500 of
the `except` block, before any insert. -/
def generate_quiz_service (db : SessionDB) (session_id : Nat)
    (number_of_questions : Nat) (userId : Nat)
    (ai : Except String (Option (List RawQuizQuestion)))
    (new_id : Nat) (now : Int) :
    SessionDB × Except HttpErr GenerateQuizResponse :=
  match sessions_find_one db.sessions session_id with
  | none => (db, .error ⟨404, "Session not found"⟩)
  | some session =>
    let session_questions :=
      (db.questions.filter (fun q => q.session = session_id)).take 20
    if session_questions = [] then
      (db, .error ⟨400, "No questions found in session to generate quiz"⟩)
    else
      match ai with
      | .error e => (db, .error ⟨500, "Failed to generate quiz: " ++ e⟩)
      | .ok none =>
        (db, .error ⟨500,
          "Failed to generate quiz: AI did not return a valid list of questions"⟩)
      | .ok (some quiz_questions) =>
        if ¬ validate_quiz_questions quiz_questions then
          (db, .error ⟨500, "Failed to generate quiz: invalid question shape"⟩)
        else
          let total_time_limit := TIME_PER_QUESTION * number_of_questions
          let quiz_doc : QuizDoc :=
            { id := new_id
              sessionId := session_id
              userId := userId
              questions := quiz_questions
              totalQuestions := number_of_questions
              timeLimitPerQuestion := TIME_PER_QUESTION
              totalTimeLimit := total_time_limit
              sessionInfo :=
                ⟨session.role, session.experience, session.topicsToFocus⟩
              status := "active"
              score := none
              submittedAt := none
              timeSpent := none
              userAnswers := List.replicate number_of_questions none
              questionStartTimes :=
                some now :: List.replicate (number_of_questions - 1) none
              currentQuestion := 0
              percentage := none
              results := []
              feedback := none
              completedAt := none
              submissionType := none
              createdAt := now }
          ({ db with quizzes := db.quizzes ++ [quiz_doc] },
            .ok { success := true
                  quizId := new_id
                  questions := quiz_questions.map
                    (fun q => ⟨q.question.getD "", q.options.getD []⟩)
                  totalQuestions := number_of_questions
                  timeLimitPerQuestion := TIME_PER_QUESTION
                  totalTimeLimit := total_time_limit
                  sessionInfo :=
                    ⟨session.role, session.experience, session.topicsToFocus⟩
                  createdAt := now })

/-- One element of the AI evaluation's `questions` list; only its
`explanation` key is ever read (`submit_quiz_service` line 202). -/
structure EvalQuestionItem where
  explanation : Option String
deriving DecidableEq, Repr

/-- The dict parsed from the AI evaluation response in
`submit_quiz_service`; every key is read with `get`, so each may be
absent. -/
structure EvalData where
  score : Option Int
  total : Option Nat
  percentage : Option ℚ
  questions : List EvalQuestionItem
  feedback : Option String
deriving DecidableEq, Repr

/-- The HTTP response of `submit_quiz_service` (lines 229-243). -/
structure SubmitQuizResponse where
  success : Bool
  quizId : Nat
  score : Int
  total : Nat
  percentage : ℚ
  questions : List ResultItem
  feedback : String
  timeSpent : Int
  totalTimeLimit : Int
  timeLimitPerQuestion : Int
  completedAt : Int
  submissionType : String
  timePerQuestion : List Int
deriving DecidableEq, Repr

/-- The answer-processing loop of `submit_quiz_service` (lines 136-147),
with `i` the zero-based loop index used in the error messages: `None`
becomes `-1` under auto-submit and a 400 otherwise; an index outside
`-1 ≤ a ≤ 3` is a 400. -/
def process_answers_from (i : Nat) (is_auto_submit : Bool) :
    List (Option Int) → Except HttpErr (List Int)
  | [] => .ok []
  | none :: rest =>
    if is_auto_submit then
      (process_answers_from (i + 1) is_auto_submit rest).map (fun l => -1 :: l)
    else .error ⟨400, "Question " ++ toString (i + 1) ++ " not answered"⟩
  | some a :: rest =>
    if ¬ (-1 ≤ a ∧ a ≤ 3) then
      .error ⟨400, "Invalid answer index for question " ++ toString (i + 1)⟩
    else (process_answers_from (i + 1) is_auto_submit rest).map (fun l => a :: l)

/-- The manual score of `submit_quiz_service` (lines 160-163): count the
positions where the submitted answer equals the stored `correctAnswer`
(an `int == None` comparison in Python is `False`, hence the `some`). -/
def manual_correct_count (qs : List RawQuizQuestion) (answers : List Int) : Nat :=
  (qs.mapIdx (fun i q =>
    if i < answers.length ∧ some (answers.getD i 0) = q.correctAnswer then 1 else 0)).sum

/-- The per-question time computation of `submit_quiz_service`
(lines 186-199) over integer timestamps: start from
`questionStartTimes[i]` (0 when missing or `None`), end at the next
recorded start time or `now`, capped at the per-question limit. -/
def time_spent_on_question (startTimes : List (Option Int)) (i : Nat)
    (limit : Int) (now : Int) : Int :=
  match startTimes.getD i none with
  | none => 0
  | some s =>
    let e := match startTimes.getD (i + 1) none with
      | some e => e
      | none => now
    min (e - s) limit

/-- One element of `results_with_options` (`submit_quiz_service`
lines 175-205). -/
def build_result_item (quiz : QuizDoc) (answers : List Int)
    (ai_questions : List EvalQuestionItem) (now : Int) (i : Nat)
    (original_q : RawQuizQuestion) : ResultItem :=
  { question := original_q.question.getD ""
    options := original_q.options.getD []
    userAnswer := if i < answers.length then some (answers.getD i 0) else none
    correctAnswer := original_q.correctAnswer
    isCorrect :=
      if i < answers.length ∧ answers.getD i 0 ≠ -1 then
        decide (some (answers.getD i 0) = original_q.correctAnswer)
      else false
    explanation := ((ai_questions.getD i ⟨none⟩).explanation).getD ""
    timeSpentOnQuestion :=
      time_spent_on_question quiz.questionStartTimes i quiz.timeLimitPerQuestion now }

/-- `submit_quiz_service` (`quiz_controller.py` lines 119-249): find the
quiz, check ownership, reject already-submitted quizzes, validate the
answer count and each answer index, evaluate (AI with a manual fallback
when the AI result has no `"score"` key; Python divides by
`len(quiz["questions"])` there, so an empty question list raises and
becomes the generic 500), build the results, `$set` the submission
fields on the stored document, and answer. -/
def submit_quiz_service (db : List QuizDoc) (quiz_id : Nat)
    (answers : List (Option Int)) (time_spent : Int) (userId : Nat)
    (is_auto_submit : Bool) (ai : Except String EvalData) (now : Int) :
    List QuizDoc × Except HttpErr SubmitQuizResponse :=
  match db.find? (fun q => q.id = quiz_id) with
  | none => (db, .error ⟨404, "Quiz not found"⟩)
  | some quiz =>
    if quiz.userId ≠ userId then (db, .error ⟨403, "Not authorized"⟩)
    else if quiz.status = "completed" ∨ quiz.status = "auto_submitted" then
      (db, .error ⟨400, "Quiz already submitted"⟩)
    else if answers.length ≠ quiz.totalQuestions then
      (db, .error ⟨400, "Invalid number of answers. Expected " ++
        toString quiz.totalQuestions ++ ", got " ++ toString answers.length⟩)
    else
      match process_answers_from 0 is_auto_submit answers with
      | .error e => (db, .error e)
      | .ok answers =>
        match ai with
        | .error e => (db, .error ⟨500, "Failed to evaluate quiz: " ++ e⟩)
        | .ok ai0 =>
          if ai0.score = none ∧ quiz.questions.length = 0 then
            (db, .error ⟨500, "Failed to evaluate quiz: division by zero"⟩)
          else
            let correct_count : Int := manual_correct_count quiz.questions answers
            let result_data :=
              if ai0.score = none then
                { ai0 with
                    score := some correct_count
                    total := some quiz.questions.length
                    percentage :=
                      some ((correct_count : ℚ) / quiz.questions.length * 100) }
              else ai0
            let results_with_options :=
              quiz.questions.mapIdx
                (build_result_item quiz answers result_data.questions now)
            let submission_type := if is_auto_submit then "auto" else "manual"
            let score := result_data.score.getD 0
            let total := result_data.total.getD quiz.questions.length
            let percentage := result_data.percentage.getD 0
            let feedback := result_data.feedback.getD ""
            let updated : QuizDoc → QuizDoc := fun q =>
              { q with
                  status := "completed"
                  userAnswers := answers.map some
                  score := some score
                  totalQuestions := total
                  percentage := some percentage
                  results := results_with_options
                  feedback := some feedback
                  timeSpent := some time_spent
                  submittedAt := some now
                  completedAt := some now
                  submissionType := some submission_type }
            (update_first (fun q => q.id = quiz_id) updated db,
              .ok { success := true
                    quizId := quiz_id
                    score := score
                    total := total
                    percentage := percentage
                    questions := results_with_options
                    feedback := feedback
                    timeSpent := time_spent
                    totalTimeLimit := quiz.totalTimeLimit
                    timeLimitPerQuestion := quiz.timeLimitPerQuestion
                    completedAt := now
                    submissionType := submission_type
                    timePerQuestion :=
                      results_with_options.map (fun q => q.timeSpentOnQuestion) })

/-! ## `controllers/session_controller.py` — `create_new_session` -/

/-- A question/answer pair of the `SessionCreate` request body
(`models/question_model.py`). -/
structure QuestionInput where
  question : String
  answer : String
  isPinned : Bool
deriving DecidableEq, Repr

/-- The `SessionCreate` request body (`models/session_model.py`);
`questions` is `Optional` with default `None`. -/
structure SessionCreate where
  role : String
  experience : Int
  topicsToFocus : String
  description : String
  questions : Option (List QuestionInput)
deriving DecidableEq, Repr

/-- The response dict of `create_new_session` (lines 56-66). -/
structure SessionCreateResponse where
  id : Nat
  user : Nat
  role : String
  experience : Int
  topicsToFocus : String
  description : String
  questions : List Nat
  createdAt : Int
  updatedAt : Int
deriving DecidableEq, Repr

/-- The question-insertion loop of `create_new_session` (lines 35-47):
insert one document per pair, collecting the assigned ids in order.
`nid` is the next `ObjectId` Mongo will assign. -/
def insert_questions (sid : Nat) (now : Int) :
    Nat → List QuestionInput → List QuestionDoc × List Nat
  | _, [] => ([], [])
  | nid, q :: rest =>
    let doc : QuestionDoc := ⟨nid, sid, q.question, q.answer, q.isPinned, now, now⟩
    let (docs, ids) := insert_questions sid now (nid + 1) rest
    (doc :: docs, nid :: ids)

/-- `create_new_session` (`session_controller.py` lines 12-68): insert
the session document with an empty `questions` array; when the request
carries a non-empty question list (`if data.questions:`), insert one
question document per pair and `$set` the collected ids on the session;
answer with the ids in order.  `next_id` is the first fresh `ObjectId`;
the session takes it and the questions take the successive ones. -/
def create_new_session (db : SessionDB) (userId : Nat) (data : SessionCreate)
    (now : Int) (next_id : Nat) : SessionDB × SessionCreateResponse :=
  let session_doc : SessionDoc :=
    ⟨next_id, userId, data.role, data.experience, data.topicsToFocus,
      data.description, [], now, now⟩
  let sessions1 := db.sessions ++ [session_doc]
  let base : SessionCreateResponse :=
    ⟨next_id, userId, data.role, data.experience, data.topicsToFocus,
      data.description, [], now, now⟩
  match data.questions with
  | none => ({ db with sessions := sessions1 }, base)
  | some qs =>
    if qs = [] then ({ db with sessions := sessions1 }, base)
    else
      let (docs, ids) := insert_questions next_id now (next_id + 1) qs
      ({ sessions := update_first (fun s => s.id = next_id)
            (fun s => { s with questions := ids }) sessions1
         questions := db.questions ++ docs
         quizzes := db.quizzes },
        { base with questions := ids })

/-! ## `controllers/study_material_controller.py` — cached study materials

The Tavily/Gemini material-generation pipeline
(`generate_study_materials_with_ai`) is external input: `gen` is its
outcome, and the categorized material payload it produces is opaque
(a `String`).  `pipelineInvoked` records whether that pipeline ran. -/

/-- A `study_materials` collection document as written by
`get_or_create_study_materials` (lines 443-453); `updated_at` is read
back with `existing.get("updated_at", datetime.utcnow())`, hence the
`Option`. -/
structure StudyMaterialDoc where
  session_id : Nat
  question_id : Nat
  question_text : String
  role : String
  experience_level : Int
  user_id : Nat
  payload : String
  created_at : Int
  updated_at : Option Int
deriving DecidableEq, Repr

/-- The outcome of one `get_or_create_study_materials` call: the new
collection state, the HTTP result, and whether the generation pipeline
was invoked. -/
structure StudyMaterialOutcome where
  db : List StudyMaterialDoc
  result : Except HttpErr StudyMaterialDoc
  pipelineInvoked : Bool
deriving Repr

/-- `timedelta(days=7)` in seconds. -/
def SEVEN_DAYS : Int := 7 * 86400

/-- The cache filter of `get_or_create_study_materials`:
`{"question_id": qid, "user_id": uid}`. -/
def sm_matches (question_id user_id : Nat) (m : StudyMaterialDoc) : Bool :=
  m.question_id == question_id && m.user_id == user_id

/-- `get_or_create_study_materials`
(`study_material_controller.py` lines 395-471): resolve the question and
its session; without `force_refresh`, return a cached entry younger than
7 days; otherwise require the user's Gemini key and run the pipeline;
persist with `update_one(..., upsert=True)` under `force_refresh` and
with `insert_one` otherwise. -/
def get_or_create_study_materials (qdb : List QuestionDoc)
    (sdb : List SessionDoc) (smdb : List StudyMaterialDoc)
    (question_id : Nat) (user_id : Nat) (force_refresh : Bool)
    (geminiKey : Option String) (gen : Except String String) (now : Int) :
    StudyMaterialOutcome :=
  match qdb.find? (fun q => q.id = question_id) with
  | none => ⟨smdb, .error ⟨404, "Question not found"⟩, false⟩
  | some question =>
    match sdb.find? (fun s => s.id = question.session) with
    | none => ⟨smdb, .error ⟨404, "Session not found"⟩, false⟩
    | some session =>
      let freshHit : Option StudyMaterialDoc :=
        if force_refresh then none
        else
          match smdb.find? (sm_matches question_id user_id) with
          | none => none
          | some existing =>
            if now - existing.updated_at.getD now < SEVEN_DAYS then
              some existing
            else none
      match freshHit with
      | some existing => ⟨smdb, .ok existing, false⟩
      | none =>
        if geminiKey = none then
          ⟨smdb, .error ⟨400,
            "Gemini API key is required for generating study materials"⟩, false⟩
        else
          match gen with
          | .error e =>
            ⟨smdb, .error ⟨500, "Failed to generate study materials: " ++ e⟩, true⟩
          | .ok payload =>
            let doc : StudyMaterialDoc :=
              ⟨session.id, question_id, question.question, session.role,
                session.experience, user_id, payload, now, some now⟩
            if force_refresh then
              if (smdb.find? (sm_matches question_id user_id)).isSome then
                ⟨update_first (sm_matches question_id user_id) (fun _ => doc) smdb,
                  .ok doc, true⟩
              else ⟨smdb ++ [doc], .ok doc, true⟩
            else ⟨smdb ++ [doc], .ok doc, true⟩

/-! ## `controllers/auth_controller.py` — OTP password reset

Bcrypt hashing (`hash_password` / `verify_password` in `utils/auth.py`)
is abstracted by a `hash` parameter; `verify_password(code, stored)` is
modelled as `hash code = stored`. -/

/-- A `reset_otps` collection document as written by
`request_password_reset` (lines 211-225). -/
structure OtpRecord where
  userId : Nat
  email : String
  otp : String
  expiresAt : Int
  attempts : Nat
  blockedUntil : Option Int
  createdAt : Int
deriving DecidableEq, Repr

/-- `MAX_ATTEMPTS = 3` (`auth_controller.py` line 239). -/
def MAX_ATTEMPTS : Nat := 3

/-- `BLOCK_DURATION = timedelta(hours=1)` in seconds (line 240). -/
def BLOCK_DURATION : Int := 3600

/-- The wrong-code branch of `verify_reset_otp` (lines 262-278):
increment `attempts`, set `blockedUntil` one hour ahead once the counter
reaches `MAX_ATTEMPTS`, answer 400; a matching code answers success and
leaves the record untouched. -/
def verify_otp_code (hash : String → String) (r : OtpRecord) (now : Int)
    (code : String) : Option OtpRecord × Except HttpErr String :=
  if hash code ≠ r.otp then
    let attempts := r.attempts + 1
    let r2 :=
      if attempts ≥ MAX_ATTEMPTS then
        { r with attempts := attempts, blockedUntil := some (now + BLOCK_DURATION) }
      else { r with attempts := attempts }
    (some r2, .error ⟨400, "Invalid OTP"⟩)
  else (some r, .ok "OTP verified successfully")

/-- `verify_reset_otp` (`auth_controller.py` lines 242-278): a missing
record is a 400; a record blocked until a future instant is a 429 before
the code is ever compared; otherwise the code is checked. -/
def verify_reset_otp (hash : String → String) (record : Option OtpRecord)
    (now : Int) (code : String) : Option OtpRecord × Except HttpErr String :=
  match record with
  | none => (none, .error ⟨400, "OTP expired or invalid"⟩)
  | some r =>
    match r.blockedUntil with
    | some b =>
      if now < b then
        (some r, .error ⟨429,
          "Try again after " ++ toString ((b - now) / 60) ++ " minutes"⟩)
      else verify_otp_code hash r now code
    | none => verify_otp_code hash r now code

/-- `reset_password` (`auth_controller.py` lines 280-296): reject a new
password equal to the stored one, otherwise store the new hash and
delete the OTP record (a missing record makes `record["_id"]` raise
after the password update, surfacing as a 500).  Returns the OTP record
state, the stored password, and the outcome. -/
def reset_password (hash : String → String) (record : Option OtpRecord)
    (userPassword : String) (newPassword : String) :
    Option OtpRecord × String × Except HttpErr String :=
  if hash newPassword = userPassword then
    (record, userPassword,
      .error ⟨400, "New password cannot be the same as the old password"⟩)
  else
    match record with
    | none => (none, hash newPassword, .error ⟨500, "Internal Server Error"⟩)
    | some _ => (none, hash newPassword, .ok "Password reset successfully")

/-! ## Theorems -/

/-- Auxiliary: one `track_request` step preserves the 1000 bound. -/
lemma track_request_step_le (h : List RequestRecord) (r : RequestRecord)
    (hh : h.length ≤ 1000) : (track_request h r).length ≤ 1000 := by
  by_cases hc : (h ++ [r]).length > 1000
  · simp only [track_request, if_pos hc, List.length_drop]
    simp at hc ⊢
    omega
  · simp only [track_request, if_neg hc]
    simp at hc
    simp [hc]

/-- Claim C9: the in-memory request-latency log is bounded.  Every state
reachable from the empty history by `track_request` steps has length at
most 1000; a single step from a bounded state stays bounded; and every
step either just appends the new record or drops exactly the oldest
entry while appending it. -/
theorem track_request_bounded :
    (∀ rs : List RequestRecord, (rs.foldl track_request []).length ≤ 1000) ∧
    (∀ h r, h.length ≤ 1000 → (track_request h r).length ≤ 1000) ∧
    (∀ h r, track_request h r = h ++ [r] ∨ track_request h r = h.tail ++ [r]) := by
  refine ⟨?_, track_request_step_le, ?_⟩
  · intro rs
    suffices H : ∀ (rs : List RequestRecord) (h : List RequestRecord),
        h.length ≤ 1000 → (rs.foldl track_request h).length ≤ 1000 by
      exact H rs [] (by simp)
    intro rs
    induction rs with
    | nil => intro h hh; simpa using hh
    | cons r rs ih =>
      intro h hh
      exact ih _ (track_request_step_le h r hh)
  · intro h r
    by_cases hc : (h ++ [r]).length > 1000
    · right
      simp only [track_request, if_pos hc]
      rcases h with _ | ⟨x, h⟩
      · simp at hc
      · simp
    · left
      simp only [track_request, if_neg hc]

/-- Witness for C9 at a concrete history of length one. -/
theorem track_request_bounded_witness :
    (track_request [⟨0, 5, false, "a"⟩] ⟨1, 7, true, "b"⟩).length ≤ 1000 :=
  track_request_bounded.2.1 [⟨0, 5, false, "a"⟩] ⟨1, 7, true, "b"⟩ (by decide)

/-- A session owned by user 9, used as concrete input for C1. -/
def cexSession : SessionDoc := ⟨1, 9, "SWE", 2, "arrays", "desc", [], 0, 0⟩

/-- A quiz whose `sessionId` references `cexSession`. -/
def cexQuiz : QuizDoc :=
  ⟨5, 1, 9, [], 0, 180, 0, ⟨"SWE", 2, "arrays"⟩, "active", none, none, none,
    [], [], 0, none, [], none, none, none, 0⟩

/-- The database holding them. -/
def cexDB : SessionDB := ⟨[cexSession], [], [cexQuiz]⟩

/-- Claim C1, counterexample: deleting session 1 (owned by user 9)
succeeds, yet the quiz with `sessionId = 1` is still in the database
afterwards — contradicting the claim that no Quiz referencing the
deleted session remains. -/
theorem delete_session_quiz_orphan_cex :
    (delete_session cexDB 1 9).2 = .ok "Session deleted successfully" ∧
    (delete_session cexDB 1 9).1.quizzes = [cexQuiz] ∧
    cexQuiz.sessionId = 1 := by
  refine ⟨rfl, rfl, rfl⟩

/-- Claim C1 (amended): a successful session delete — user-facing or
admin — removes every Question referencing the session, but leaves the
`quizzes` collection entirely untouched, so quizzes referencing the
deleted session remain. -/
theorem session_delete_scope :
    (∀ db sid uid db' msg, delete_session db sid uid = (db', .ok msg) →
      (∀ q ∈ db'.questions, ¬ q.session = sid) ∧ db'.quizzes = db.quizzes) ∧
    (∀ db sid adm db' msg, admin_delete_session db sid adm = (db', .ok msg) →
      (∀ q ∈ db'.questions, ¬ q.session = sid) ∧ db'.quizzes = db.quizzes) := by
  constructor
  · intro db sid uid db' msg h
    unfold delete_session at h
    rcases hf : sessions_find_one db.sessions sid with _ | s <;> rw [hf] at h
    · exact absurd (congrArg Prod.snd h) (by simp)
    · dsimp only at h
      by_cases hu : s.user ≠ uid
      · rw [if_pos hu] at h
        exact absurd (congrArg Prod.snd h) (by simp)
      · rw [if_neg hu] at h
        have h1 := congrArg Prod.fst h
        simp only at h1
        rw [← h1]
        refine ⟨?_, rfl⟩
        intro q hq
        have := List.mem_filter.mp hq
        simpa using this.2
  · intro db sid adm db' msg h
    unfold admin_delete_session at h
    by_cases ha : ¬ adm = true
    · rw [if_pos ha] at h
      exact absurd (congrArg Prod.snd h) (by simp)
    · rw [if_neg ha] at h
      rcases hf : sessions_find_one db.sessions sid with _ | s <;> rw [hf] at h
      · exact absurd (congrArg Prod.snd h) (by simp)
      · dsimp only at h
        have h1 := congrArg Prod.fst h
        simp only at h1
        rw [← h1]
        refine ⟨?_, rfl⟩
        intro q hq
        have := List.mem_filter.mp hq
        simpa using this.2

/-- Witness for the amended C1 at the concrete database above. -/
theorem session_delete_scope_witness :
    (∀ q ∈ (delete_session cexDB 1 9).1.questions, ¬ q.session = 1) ∧
    (delete_session cexDB 1 9).1.quizzes = cexDB.quizzes :=
  session_delete_scope.1 cexDB 1 9 (delete_session cexDB 1 9).1
    "Session deleted successfully" rfl

/-- Claim C6: three consecutive invalid codes against a fresh OTP record
set `blockedUntil` one hour past the third attempt; while blocked, every
verification attempt is answered 429 with the record untouched,
whatever the code; and once the record has been consumed by a completed
password reset, any code — the previously correct one included — is
rejected. -/
theorem otp_lockout_and_consumption :
    (∀ (hash : String → String) (r0 : OtpRecord) (t1 t2 t3 : Int)
        (c1 c2 c3 : String),
      r0.attempts = 0 → r0.blockedUntil = none →
      hash c1 ≠ r0.otp → hash c2 ≠ r0.otp → hash c3 ≠ r0.otp →
      (verify_reset_otp hash
        (verify_reset_otp hash
          (verify_reset_otp hash (some r0) t1 c1).1 t2 c2).1 t3 c3)
        = (some ({ r0 with attempts := 3, blockedUntil := some (t3 + BLOCK_DURATION) } : OtpRecord),
            .error ⟨400, "Invalid OTP"⟩)) ∧
    (∀ (hash : String → String) (r : OtpRecord) (b t : Int) (code : String),
      r.blockedUntil = some b → t < b →
      verify_reset_otp hash (some r) t code
        = (some r, .error ⟨429,
            "Try again after " ++ toString ((b - t) / 60) ++ " minutes"⟩)) ∧
    (∀ (hash : String → String) (r : OtpRecord) (userPw newPw : String)
        (t : Int) (code : String),
      hash newPw ≠ userPw →
      (reset_password hash (some r) userPw newPw).1 = none ∧
      (verify_reset_otp hash (reset_password hash (some r) userPw newPw).1 t code)
        = (none, .error ⟨400, "OTP expired or invalid"⟩)) := by
  refine ⟨?_, ?_, ?_⟩
  · intro hash r0 t1 t2 t3 c1 c2 c3 ha hb h1 h2 h3
    have s1 : verify_reset_otp hash (some r0) t1 c1
        = (some { r0 with attempts := 1 }, .error ⟨400, "Invalid OTP"⟩) := by
      simp [verify_reset_otp, verify_otp_code, hb, h1, ha, MAX_ATTEMPTS]
    have s2 : verify_reset_otp hash (some { r0 with attempts := 1 }) t2 c2
        = (some { r0 with attempts := 2 }, .error ⟨400, "Invalid OTP"⟩) := by
      simp [verify_reset_otp, verify_otp_code, hb, h2, MAX_ATTEMPTS]
    have s3 : verify_reset_otp hash (some { r0 with attempts := 2 }) t3 c3
        = (some ({ r0 with attempts := 3, blockedUntil := some (t3 + BLOCK_DURATION) } : OtpRecord),
          .error ⟨400, "Invalid OTP"⟩) := by
      simp [verify_reset_otp, verify_otp_code, hb, h3, MAX_ATTEMPTS]
    rw [s1, s2, s3]
  · intro hash r b t code hb ht
    simp [verify_reset_otp, hb, ht]
  · intro hash r userPw newPw t code hne
    constructor
    · simp [reset_password, hne]
    · have : (reset_password hash (some r) userPw newPw).1 = none := by
        simp [reset_password, hne]
      rw [this]
      simp [verify_reset_otp]

/-- A fresh OTP record whose (hashed) code is `"secret"`, for the C6
witness; the hash is instantiated with the identity function. -/
def cexOtpRecord : OtpRecord := ⟨1, "u@e", "secret", 300, 0, none, 0⟩

/-- Witness for C6: three wrong codes at times 10, 20, 30 block the
record until 30 + 3600. -/
theorem otp_lockout_witness :
    (verify_reset_otp id
      (verify_reset_otp id
        (verify_reset_otp id (some cexOtpRecord) 10 "x").1 20 "y").1 30 "z")
      = (some ({ cexOtpRecord with attempts := 3, blockedUntil := some (30 + BLOCK_DURATION) } : OtpRecord),
          .error ⟨400, "Invalid OTP"⟩) :=
  otp_lockout_and_consumption.1 id cexOtpRecord 10 20 30 "x" "y" "z"
    rfl rfl (by decide) (by decide) (by decide)

/-- A question in session 2, for the C5 inputs. -/
def smQuestion : QuestionDoc := ⟨1, 2, "What is X", "An answer", false, 0, 0⟩

/-- The session holding `smQuestion`. -/
def smSession : SessionDoc := ⟨2, 9, "SWE", 3, "topics", "desc", [1], 0, 0⟩

/-- A study-material cache entry for (question 1, user 7), last updated
at time 0. -/
def smOld : StudyMaterialDoc :=
  ⟨2, 1, "What is X", "SWE", 3, 7, "old-materials", 0, some 0⟩

/-- Claim C5, counterexample: at `now = SEVEN_DAYS` the cached entry is
exactly 7 days old, so without `force_refresh` the pipeline is invoked —
but the code runs `insert_one`, so the stale entry survives unchanged
next to the new document.  The stored entry is not regenerated: a second
document is inserted instead. -/
theorem study_material_stale_insert_cex :
    (get_or_create_study_materials [smQuestion] [smSession] [smOld] 1 7 false
        (some "key") (.ok "new-materials") SEVEN_DAYS).pipelineInvoked = true ∧
    (get_or_create_study_materials [smQuestion] [smSession] [smOld] 1 7 false
        (some "key") (.ok "new-materials") SEVEN_DAYS).db
      = [smOld,
          ⟨2, 1, "What is X", "SWE", 3, 7, "new-materials", SEVEN_DAYS,
            some SEVEN_DAYS⟩] ∧
    smOld.payload ≠ "new-materials" := by
  refine ⟨rfl, rfl, by decide⟩

/-- Claim C5 (amended): without `force_refresh`, a cached entry strictly
younger than 7 days is returned as-is and the pipeline is not invoked; a
cached entry 7 or more days old triggers the pipeline but the new
document is `insert_one`-ed next to the surviving stale entry; with
`force_refresh` the pipeline runs and the stored entry is updated in
place. -/
theorem study_material_cache_paths :
    (∀ qdb sdb smdb qid uid key gen now q s e,
      qdb.find? (fun x => x.id = qid) = some q →
      sdb.find? (fun x => x.id = q.session) = some s →
      smdb.find? (sm_matches qid uid) = some e →
      now - e.updated_at.getD now < SEVEN_DAYS →
      get_or_create_study_materials qdb sdb smdb qid uid false key gen now
        = ⟨smdb, .ok e, false⟩) ∧
    (∀ qdb sdb smdb qid uid key payload now q s e,
      qdb.find? (fun x => x.id = qid) = some q →
      sdb.find? (fun x => x.id = q.session) = some s →
      smdb.find? (sm_matches qid uid) = some e →
      ¬ now - e.updated_at.getD now < SEVEN_DAYS →
      key ≠ none →
      get_or_create_study_materials qdb sdb smdb qid uid false key
          (.ok payload) now
        = ⟨smdb ++ [⟨s.id, qid, q.question, s.role, s.experience, uid,
              payload, now, some now⟩],
            .ok ⟨s.id, qid, q.question, s.role, s.experience, uid,
              payload, now, some now⟩, true⟩) ∧
    (∀ qdb sdb smdb qid uid key payload now q s e,
      qdb.find? (fun x => x.id = qid) = some q →
      sdb.find? (fun x => x.id = q.session) = some s →
      smdb.find? (sm_matches qid uid) = some e →
      key ≠ none →
      get_or_create_study_materials qdb sdb smdb qid uid true key
          (.ok payload) now
        = ⟨update_first (sm_matches qid uid)
              (fun _ => ⟨s.id, qid, q.question, s.role, s.experience, uid,
                payload, now, some now⟩) smdb,
            .ok ⟨s.id, qid, q.question, s.role, s.experience, uid,
              payload, now, some now⟩, true⟩) := by
  refine ⟨?_, ?_, ?_⟩
  · intro qdb sdb smdb qid uid key gen now q s e hq hs he hfresh
    simp [get_or_create_study_materials, hq, hs, he, hfresh]
  · intro qdb sdb smdb qid uid key payload now q s e hq hs he hstale hkey
    simp [get_or_create_study_materials, hq, hs, he, hstale, hkey]
  · intro qdb sdb smdb qid uid key payload now q s e hq hs he hkey
    simp [get_or_create_study_materials, hq, hs, he, hkey]

/-- Witness for the amended C5: a cache entry updated at time 0 and read
at time 10 is returned without invoking the pipeline. -/
theorem study_material_cache_paths_witness :
    get_or_create_study_materials [smQuestion] [smSession] [smOld] 1 7 false
        (some "key") (.ok "new-materials") 10
      = ⟨[smOld], .ok smOld, false⟩ :=
  study_material_cache_paths.1 [smQuestion] [smSession] [smOld] 1 7
    (some "key") (.ok "new-materials") 10 smQuestion smSession smOld
    rfl rfl rfl (by decide)

/-- Claim C8, counterexample: the seven-character text `"a\\nb"` is
valid JSON whose decoded value is the string `a`-backslash-`n`-`b`, but
the parser under its default `fix_newlines=True` returns the string
`a`-newline-`b` — not exactly the json-decoded value. -/
theorem parse_gemini_fix_newlines_cex :
    json_loads_strlit "\"a\\\\nb\"" = some (.str "a\\nb") ∧
    parse_gemini_json_response json_loads_strlit "\"a\\\\nb\""
      = .ok (.str "a\nb") ∧
    ("a\nb" : String) ≠ "a\\nb" := by
  refine ⟨rfl, rfl, by decide⟩

/-- Claim C8 (amended): the parser proceeds direct parse → fence strip →
regex extraction → error, never re-calling the LLM; a successful parse
at any stage returns the json-decoded value post-processed by
`_fix_escaped_newlines_in_parsed` (backslash-`n` becomes newline inside
strings) when the caller's `fix_newlines` flag is true — its default,
so in particular the default-path result is not always exactly the raw
decoded value — and exactly the raw json-decoded value when the caller
passes `fix_newlines=False`; blank input errors out immediately. -/
theorem parse_gemini_json_stages :
    (∀ (loads : String → Option PyJson) text v (b : Bool), py_strip text ≠ "" →
      loads (py_strip text) = some v →
      parse_gemini_json_response loads text b
        = .ok (if b then fix_escaped_newlines_in_parsed v else v)) ∧
    (∀ (loads : String → Option PyJson) text v (b : Bool), py_strip text ≠ "" →
      loads (py_strip text) = none →
      loads (strip_code_fences (py_strip text)) = some v →
      parse_gemini_json_response loads text b
        = .ok (if b then fix_escaped_newlines_in_parsed v else v)) ∧
    (∀ (loads : String → Option PyJson) text v (b : Bool), py_strip text ≠ "" →
      loads (py_strip text) = none →
      loads (strip_code_fences (py_strip text)) = none →
      (regex_candidates (strip_code_fences (py_strip text))).findSome? loads = some v →
      parse_gemini_json_response loads text b
        = .ok (if b then fix_escaped_newlines_in_parsed v else v)) ∧
    (∀ (loads : String → Option PyJson) text (b : Bool), py_strip text ≠ "" →
      loads (py_strip text) = none →
      loads (strip_code_fences (py_strip text)) = none →
      (regex_candidates (strip_code_fences (py_strip text))).findSome? loads = none →
      parse_gemini_json_response loads text b
        = .error "Could not parse JSON from Gemini response") ∧
    (∀ (loads : String → Option PyJson) text (b : Bool), py_strip text = "" →
      parse_gemini_json_response loads text b
        = .error "Empty response from Gemini") := by
  have hne : ∀ text : String, py_strip text ≠ "" →
      ¬ (text = "" ∨ py_strip text = "") := by
    intro text h hc
    rcases hc with hc | hc
    · subst hc; exact h rfl
    · exact h hc
  refine ⟨?_, ?_, ?_, ?_, ?_⟩
  · intro loads text v b ht hl
    simp [parse_gemini_json_response, hne text ht, hl]
  · intro loads text v b ht h1 h2
    simp [parse_gemini_json_response, hne text ht, h1, h2]
  · intro loads text v b ht h1 h2 h3
    simp [parse_gemini_json_response, hne text ht, h1, h2, h3]
  · intro loads text b ht h1 h2 h3
    simp [parse_gemini_json_response, hne text ht, h1, h2, h3]
  · intro loads text b ht
    simp [parse_gemini_json_response, ht]

/-- Witness for the amended C8: under the default `fix_newlines=True`
the post-processing applies, while under `fix_newlines=False` (as the
search-query parse in `study_material_controller.py` calls it) the raw
json-decoded value is returned exactly. -/
theorem parse_gemini_json_stages_witness :
    parse_gemini_json_response json_loads_strlit "\"a\\\\nb\"" true
      = .ok (.str "a\nb") ∧
    parse_gemini_json_response json_loads_strlit "\"a\\\\nb\"" false
      = .ok (.str "a\\nb") :=
  ⟨parse_gemini_json_stages.1 json_loads_strlit "\"a\\\\nb\"" (.str "a\\nb")
      true (by decide) rfl,
    parse_gemini_json_stages.1 json_loads_strlit "\"a\\\\nb\"" (.str "a\\nb")
      false (by decide) rfl⟩

/-- Auxiliary: shape of the question-insertion loop — one document per
pair, consecutive ids, session reference, submitted order. -/
lemma insert_questions_spec (sid : Nat) (now : Int) :
    ∀ (nid : Nat) (qs : List QuestionInput),
      ((insert_questions sid now nid qs).1.length = qs.length) ∧
      (∀ i, (insert_questions sid now nid qs).1.get? i
        = (qs.get? i).map (fun q =>
            ⟨nid + i, sid, q.question, q.answer, q.isPinned, now, now⟩)) ∧
      ((insert_questions sid now nid qs).2
        = (insert_questions sid now nid qs).1.map (fun d => d.id)) := by
  intro nid qs
  induction qs generalizing nid with
  | nil =>
    refine ⟨rfl, ?_, rfl⟩
    intro i; cases i <;> rfl
  | cons q rest ih =>
    obtain ⟨ih1, ih2, ih3⟩ := ih (nid + 1)
    refine ⟨?_, ?_, ?_⟩
    · show ((insert_questions sid now (nid + 1) rest).1.length + 1) = rest.length + 1
      omega
    · intro i
      cases i with
      | zero => simp [insert_questions]
      | succ i =>
        show (insert_questions sid now (nid + 1) rest).1.get? i
          = (rest.get? i).map (fun q =>
              ⟨nid + (i + 1), sid, q.question, q.answer, q.isPinned, now, now⟩)
        rw [ih2 i]
        have harith : nid + 1 + i = nid + (i + 1) := by omega
        rw [harith]
    · show nid :: (insert_questions sid now (nid + 1) rest).2
        = (⟨nid, sid, q.question, q.answer, q.isPinned, now, now⟩ : QuestionDoc).id
            :: (insert_questions sid now (nid + 1) rest).1.map (fun d => d.id)
      rw [ih3]

/-- Auxiliary: `find_one` hits a freshly appended document when no
earlier document carries its id. -/
lemma find_append_fresh (l : List SessionDoc) (s0 : SessionDoc) (nid : Nat)
    (hl : ∀ s ∈ l, s.id ≠ nid) (h0 : s0.id = nid) :
    sessions_find_one (l ++ [s0]) nid = some s0 := by
  induction l with
  | nil => simp [sessions_find_one, List.find?, h0]
  | cons s rest ih =>
    have hs : s.id ≠ nid := hl s (List.mem_cons_self s rest)
    have := ih (fun x hx => hl x (List.mem_cons_of_mem s hx))
    simp only [sessions_find_one, List.cons_append, List.find?] at this ⊢
    simp [hs, this]

/-- Auxiliary: `find_one` after an `update_one` targeting a freshly
appended document returns the updated document. -/
lemma find_update_first_fresh (l : List SessionDoc) (s0 : SessionDoc)
    (f : SessionDoc → SessionDoc) (nid : Nat)
    (hl : ∀ s ∈ l, s.id ≠ nid) (h0 : s0.id = nid) (hf : (f s0).id = nid) :
    sessions_find_one (update_first (fun s => s.id = nid) f (l ++ [s0])) nid
      = some (f s0) := by
  induction l with
  | nil => simp [sessions_find_one, update_first, List.find?, h0, hf]
  | cons s rest ih =>
    have hs : s.id ≠ nid := hl s (List.mem_cons_self s rest)
    have := ih (fun x hx => hl x (List.mem_cons_of_mem s hx))
    simp only [update_first, List.cons_append] at this ⊢
    simp only [sessions_find_one, List.find?] at this ⊢
    simp [hs, this]

/-- Claim C7: creating a session whose body carries the pair list `qs`
persists exactly `qs.length` question documents, appended in submitted
order, each referencing the new session's id, and the stored session
document lists their ids in that same order (also echoed in the
response). -/
theorem create_session_persists_questions :
    ∀ db uid data now nid qs,
      data.questions = some qs →
      (∀ s ∈ db.sessions, s.id ≠ nid) →
      ∃ newdocs ids,
        (create_new_session db uid data now nid).1.questions
          = db.questions ++ newdocs ∧
        newdocs.length = qs.length ∧
        (∀ i, newdocs.get? i = (qs.get? i).map (fun q =>
          ⟨nid + 1 + i, nid, q.question, q.answer, q.isPinned, now, now⟩)) ∧
        ids = newdocs.map (fun d => d.id) ∧
        sessions_find_one (create_new_session db uid data now nid).1.sessions nid
          = some ⟨nid, uid, data.role, data.experience, data.topicsToFocus,
              data.description, ids, now, now⟩ ∧
        (create_new_session db uid data now nid).2.questions = ids := by
  intro db uid data now nid qs hq hfresh
  by_cases hqs : qs = []
  · subst hqs
    refine ⟨[], [], ?_, rfl, ?_, rfl, ?_, ?_⟩
    · simp [create_new_session, hq]
    · intro i; cases i <;> rfl
    · simp only [create_new_session, hq]
      exact find_append_fresh db.sessions _ nid hfresh rfl
    · simp [create_new_session, hq]
  · obtain ⟨l1, l2, l3⟩ := insert_questions_spec nid now (nid + 1) qs
    refine ⟨(insert_questions nid now (nid + 1) qs).1,
            (insert_questions nid now (nid + 1) qs).2, ?_, l1, l2, l3, ?_, ?_⟩
    · simp [create_new_session, hq, hqs]
    · simp only [create_new_session, hq]
      rw [if_neg hqs]
      exact find_update_first_fresh db.sessions _ _ nid hfresh rfl rfl
    · simp [create_new_session, hq, hqs]

/-- A concrete session-creation body with two question/answer pairs. -/
def c7data : SessionCreate :=
  ⟨"SWE", 2, "arrays", "desc", some [⟨"q1", "a1", false⟩, ⟨"q2", "a2", true⟩]⟩

/-- Witness for C7 on an empty database with two submitted pairs. -/
theorem create_session_persists_questions_witness :
    ∃ newdocs ids,
      (create_new_session ⟨[], [], []⟩ 9 c7data 0 100).1.questions
        = ([] : List QuestionDoc) ++ newdocs ∧
      newdocs.length = (c7data.questions.getD []).length ∧
      (∀ i, newdocs.get? i = ((c7data.questions.getD []).get? i).map (fun q =>
        ⟨100 + 1 + i, 100, q.question, q.answer, q.isPinned, 0, 0⟩)) ∧
      ids = newdocs.map (fun d => d.id) ∧
      sessions_find_one (create_new_session ⟨[], [], []⟩ 9 c7data 0 100).1.sessions 100
        = some ⟨100, 9, c7data.role, c7data.experience, c7data.topicsToFocus,
            c7data.description, ids, 0, 0⟩ ∧
      (create_new_session ⟨[], [], []⟩ 9 c7data 0 100).2.questions = ids :=
  create_session_persists_questions ⟨[], [], []⟩ 9 c7data 0 100
    [⟨"q1", "a1", false⟩, ⟨"q2", "a2", true⟩] rfl (by simp)

/-- Claim C4: whenever quiz generation persists a quiz document, every
question in it carries all four fields, exactly 4 options and a
`correctAnswer` in 0..3; LLM output that is not a list, or a list with a
malformed question, makes generation fail with no insert. -/
theorem generate_quiz_validates_shape :
    (∀ db sid n uid ai nid now doc,
      (generate_quiz_service db sid n uid ai nid now).1.quizzes
        = db.quizzes ++ [doc] →
      doc.questions.all quiz_question_shape_ok = true) ∧
    (∀ db sid n uid qs nid now,
      validate_quiz_questions qs = false →
      (generate_quiz_service db sid n uid (.ok (some qs)) nid now).1 = db ∧
      ∃ err, (generate_quiz_service db sid n uid (.ok (some qs)) nid now).2
        = .error err) ∧
    (∀ db sid n uid nid now,
      (generate_quiz_service db sid n uid (.ok none) nid now).1 = db ∧
      ∃ err, (generate_quiz_service db sid n uid (.ok none) nid now).2
        = .error err) := by
  refine ⟨?_, ?_, ?_⟩
  · intro db sid n uid ai nid now doc h
    unfold generate_quiz_service at h
    rcases hf : sessions_find_one db.sessions sid with _ | s <;> rw [hf] at h
    · exact absurd (congrArg List.length h) (by simp)
    · dsimp only at h
      by_cases he : (db.questions.filter (fun q => q.session = sid)).take 20 = []
      · rw [if_pos he] at h
        exact absurd (congrArg List.length h) (by simp)
      · rw [if_neg he] at h
        rcases ai with e | _ | qs
        · exact absurd (congrArg List.length h) (by simp)
        · exact absurd (congrArg List.length h) (by simp)
        · dsimp only at h
          by_cases hv : validate_quiz_questions qs
          · have hcond : ¬ (¬ validate_quiz_questions qs = true) := by
              simpa using hv
            rw [if_neg hcond] at h
            have hd : doc.questions = qs := by
              have := List.append_inj_right h rfl
              have hdq : doc = _ := (List.cons.injEq _ _ _ _).mp this.symm |>.1
              rw [hdq]
            rw [hd]
            exact hv
          · have hcond : (¬ validate_quiz_questions qs = true) := by
              simpa using hv
            rw [if_pos hcond] at h
            exact absurd (congrArg List.length h) (by simp)
  · intro db sid n uid qs nid now hv
    rcases hf : sessions_find_one db.sessions sid with _ | s
    · exact ⟨by simp [generate_quiz_service, hf],
        ⟨⟨404, "Session not found"⟩, by simp [generate_quiz_service, hf]⟩⟩
    · by_cases he : (db.questions.filter (fun q => q.session = sid)).take 20 = []
      · exact ⟨by simp [generate_quiz_service, hf, he],
          ⟨⟨400, "No questions found in session to generate quiz"⟩,
            by simp [generate_quiz_service, hf, he]⟩⟩
      · refine ⟨?_, ⟨⟨500, "Failed to generate quiz: invalid question shape"⟩, ?_⟩⟩
        · simp [generate_quiz_service, hf, he, hv]
        · simp [generate_quiz_service, hf, he, hv]
  · intro db sid n uid nid now
    rcases hf : sessions_find_one db.sessions sid with _ | s
    · exact ⟨by simp [generate_quiz_service, hf],
        ⟨⟨404, "Session not found"⟩, by simp [generate_quiz_service, hf]⟩⟩
    · by_cases he : (db.questions.filter (fun q => q.session = sid)).take 20 = []
      · exact ⟨by simp [generate_quiz_service, hf, he],
          ⟨⟨400, "No questions found in session to generate quiz"⟩,
            by simp [generate_quiz_service, hf, he]⟩⟩
      · exact ⟨by simp [generate_quiz_service, hf, he],
          ⟨⟨500,
            "Failed to generate quiz: AI did not return a valid list of questions"⟩,
            by simp [generate_quiz_service, hf, he]⟩⟩

/-- A session with one stored question, used to run generation
concretely. -/
def genDB : SessionDB :=
  ⟨[⟨1, 9, "SWE", 2, "arrays", "d", [], 0, 0⟩],
   [⟨3, 1, "What", "Ans", false, 0, 0⟩], []⟩

/-- A well-formed LLM quiz question. -/
def goodQ : RawQuizQuestion :=
  ⟨some "Q1", some ["a", "b", "c", "d"], some 2, some "E"⟩

/-- The quiz document that generation inserts for `genDB` and `goodQ`. -/
def c4doc : QuizDoc :=
  ⟨42, 1, 9, [goodQ], 1, 180, 180, ⟨"SWE", 2, "arrays"⟩, "active", none,
    none, none, [none], [some 0], 0, none, [], none, none, none, 0⟩

/-- Witness for C4 at a concrete successful generation. -/
theorem generate_quiz_validates_shape_witness :
    c4doc.questions.all quiz_question_shape_ok = true :=
  generate_quiz_validates_shape.1 genDB 1 1 9 (.ok (some [goodQ])) 42 0 c4doc rfl

/-- Claim C10: the generation response lists, per question, only the
question text and the options (conjunct 1), and — validation aside — it
is invariant under any change to the `correctAnswer` and `explanation`
values of the generated questions: two parsed question lists that agree
on text and options produce identical responses (conjunct 2). -/
theorem generate_quiz_response_visibility :
    (∀ db sid n uid qs nid now resp,
      (generate_quiz_service db sid n uid (.ok (some qs)) nid now).2 = .ok resp →
      resp.questions = qs.map (fun q => ⟨q.question.getD "", q.options.getD []⟩)) ∧
    (∀ db sid n uid qs qs2 nid now,
      qs.map (fun q => (q.question, q.options))
        = qs2.map (fun q => (q.question, q.options)) →
      validate_quiz_questions qs = true →
      validate_quiz_questions qs2 = true →
      (generate_quiz_service db sid n uid (.ok (some qs)) nid now).2
        = (generate_quiz_service db sid n uid (.ok (some qs2)) nid now).2) := by
  constructor
  · intro db sid n uid qs nid now resp h
    unfold generate_quiz_service at h
    rcases hf : sessions_find_one db.sessions sid with _ | s <;> rw [hf] at h
    · simp at h
    · dsimp only at h
      by_cases he : (db.questions.filter (fun q => q.session = sid)).take 20 = []
      · rw [if_pos he] at h
        simp at h
      · rw [if_neg he] at h
        by_cases hv : validate_quiz_questions qs
        · have hcond : ¬ (¬ validate_quiz_questions qs = true) := by
            simpa using hv
          rw [if_neg hcond] at h
          have := (Except.ok.injEq _ _).mp h
          rw [← this]
        · have hcond : (¬ validate_quiz_questions qs = true) := by
            simpa using hv
          rw [if_pos hcond] at h
          simp at h
  · intro db sid n uid qs qs2 nid now hproj hv1 hv2
    have hpub : qs.map (fun q => (⟨q.question.getD "", q.options.getD []⟩ :
          QuizQuestionPublic))
        = qs2.map (fun q => ⟨q.question.getD "", q.options.getD []⟩) := by
      have := congrArg (List.map (fun p : Option String × Option (List String) =>
        (⟨p.1.getD "", p.2.getD []⟩ : QuizQuestionPublic))) hproj
      simpa [List.map_map, Function.comp] using this
    rcases hf : sessions_find_one db.sessions sid with _ | s <;>
      simp only [generate_quiz_service, hf]
    by_cases he : (db.questions.filter (fun q => q.session = sid)).take 20 = []
    · rw [if_pos he, if_pos he]
    · rw [if_neg he, if_neg he]
      have hc1 : ¬ (¬ validate_quiz_questions qs = true) := by simpa using hv1
      have hc2 : ¬ (¬ validate_quiz_questions qs2 = true) := by simpa using hv2
      rw [if_neg hc1, if_neg hc2]
      rw [hpub]

/-- The well-formed question of `goodQ` with a different correct answer
and explanation but the same text and options. -/
def goodQ2 : RawQuizQuestion :=
  ⟨some "Q1", some ["a", "b", "c", "d"], some 0, some "Other"⟩

/-- Witness for C10: changing `correctAnswer`/`explanation` leaves the
generation response unchanged. -/
theorem generate_quiz_response_visibility_witness :
    (generate_quiz_service genDB 1 1 9 (.ok (some [goodQ])) 42 0).2
      = (generate_quiz_service genDB 1 1 9 (.ok (some [goodQ2])) 42 0).2 :=
  generate_quiz_response_visibility.2 genDB 1 1 9 [goodQ] [goodQ2] 42 0
    rfl rfl rfl

/-- Auxiliary: `find_one` after `update_one` on the found document
returns the updated document, for id-preserving updates. -/
lemma find_update_first_id (db : List QuizDoc) (qid : Nat)
    (f : QuizDoc → QuizDoc) (quiz : QuizDoc)
    (hfind : db.find? (fun q => q.id = qid) = some quiz)
    (hf : ∀ x, (f x).id = x.id) :
    (update_first (fun q => q.id = qid) f db).find? (fun q => q.id = qid)
      = some (f quiz) := by
  induction db with
  | nil => simp [List.find?] at hfind
  | cons x rest ih =>
    by_cases hx : x.id = qid
    · have hq : quiz = x := by
        simp [List.find?, hx] at hfind
        exact hfind.symm
      subst hq
      simp [update_first, List.find?, hx, hf]
    · have hfind2 : rest.find? (fun q => q.id = qid) = some quiz := by
        simpa [List.find?, hx] using hfind
      have := ih hfind2
      simp [update_first, List.find?, hx, this]

/-- Auxiliary: a submission rebound on a freshly updated quiz whose
update completes it is rejected as already submitted. -/
lemma submit_after_update (db : List QuizDoc) (qid : Nat) (quiz : QuizDoc)
    (uid : Nat) (hfind : db.find? (fun q => q.id = qid) = some quiz)
    (howner : quiz.userId = uid) (f : QuizDoc → QuizDoc)
    (hid : ∀ x, (f x).id = x.id) (hstat : ∀ x, (f x).status = "completed")
    (huid : ∀ x, (f x).userId = x.userId) :
    ∀ answers2 ts2 auto2 ai2 now2,
      submit_quiz_service (update_first (fun q => q.id = qid) f db) qid
          answers2 ts2 uid auto2 ai2 now2
        = (update_first (fun q => q.id = qid) f db,
            .error ⟨400, "Quiz already submitted"⟩) := by
  intro answers2 ts2 auto2 ai2 now2
  have hfind2 := find_update_first_id db qid f quiz hfind hid
  unfold submit_quiz_service
  rw [hfind2]
  dsimp only
  rw [if_neg (by simp [huid, howner])]
  rw [if_pos (Or.inl (hstat quiz))]

/-- The conditions under which the answer-processing loop of
`submit_quiz_service` rejects the element: a missing answer outside
auto-submit, or an index outside `-1..3`. -/
def answer_invalid (is_auto_submit : Bool) : Option Int → Prop
  | none => is_auto_submit = false
  | some v => ¬ (-1 ≤ v ∧ v ≤ 3)

/-- Auxiliary: an invalid answer anywhere in the list makes the
processing loop answer a 400. -/
lemma process_answers_invalid (auto : Bool) :
    ∀ (k : Nat) (answers : List (Option Int)),
      (∃ i, i < answers.length ∧ answer_invalid auto (answers.getD i none)) →
      ∃ msg, process_answers_from k auto answers = .error ⟨400, msg⟩ := by
  intro k answers
  induction answers generalizing k with
  | nil =>
    rintro ⟨i, hi, _⟩
    simp at hi
  | cons a rest ih =>
    rintro ⟨i, hi, hinv⟩
    cases a with
    | none =>
      by_cases hauto : auto
      · cases i with
        | zero =>
          rw [List.getD_cons_zero] at hinv
          exact absurd hinv (by simp [answer_invalid, hauto])
        | succ i =>
          obtain ⟨msg, hmsg⟩ := ih (k + 1)
            ⟨i, by simpa using hi, by simpa using hinv⟩
          rw [hauto] at hmsg
          exact ⟨msg, by simp [process_answers_from, hauto, hmsg, Except.map]⟩
      · exact ⟨"Question " ++ toString (k + 1) ++ " not answered",
          by simp [process_answers_from, hauto]⟩
    | some v =>
      by_cases hv : ¬ (-1 ≤ v ∧ v ≤ 3)
      · exact ⟨"Invalid answer index for question " ++ toString (k + 1),
          by simp [process_answers_from, hv]⟩
      · cases i with
        | zero =>
          rw [List.getD_cons_zero] at hinv
          exact absurd hinv (by simpa [answer_invalid] using hv)
        | succ i =>
          obtain ⟨msg, hmsg⟩ := ih (k + 1)
            ⟨i, by simpa using hi, by simpa using hinv⟩
          refine ⟨msg, ?_⟩
          simp [process_answers_from, hv, hmsg, Except.map]

/-- Claim C2: a quiz whose status is `completed` or `auto_submitted`
rejects any further owner submission with 400 "Quiz already submitted"
and an unchanged store; and a successful submission completes the quiz,
so any later owner submission against the same id is rejected the same
way with the store unchanged — a quiz is submitted successfully at most
once. -/
theorem quiz_submitted_at_most_once :
    (∀ db qid answers ts uid auto ai now quiz,
      db.find? (fun q => q.id = qid) = some quiz →
      quiz.userId = uid →
      (quiz.status = "completed" ∨ quiz.status = "auto_submitted") →
      submit_quiz_service db qid answers ts uid auto ai now
        = (db, .error ⟨400, "Quiz already submitted"⟩)) ∧
    (∀ db qid answers ts uid auto ai now db2 resp,
      submit_quiz_service db qid answers ts uid auto ai now = (db2, .ok resp) →
      ∀ answers2 ts2 auto2 ai2 now2,
        submit_quiz_service db2 qid answers2 ts2 uid auto2 ai2 now2
          = (db2, .error ⟨400, "Quiz already submitted"⟩)) := by
  constructor
  · intro db qid answers ts uid auto ai now quiz hfind howner hstat
    unfold submit_quiz_service
    rw [hfind]
    dsimp only
    rw [if_neg (by simp [howner])]
    rw [if_pos hstat]
  · intro db qid answers ts uid auto ai now db2 resp h
    unfold submit_quiz_service at h
    rcases hfind : db.find? (fun q => q.id = qid) with _ | quiz <;> rw [hfind] at h
    · exact absurd (congrArg Prod.snd h) (by simp)
    · dsimp only at h
      by_cases howner : quiz.userId ≠ uid
      · rw [if_pos howner] at h
        exact absurd (congrArg Prod.snd h) (by simp)
      · rw [if_neg howner] at h
        by_cases hstat : quiz.status = "completed" ∨ quiz.status = "auto_submitted"
        · rw [if_pos hstat] at h
          exact absurd (congrArg Prod.snd h) (by simp)
        · rw [if_neg hstat] at h
          by_cases hlen : answers.length ≠ quiz.totalQuestions
          · rw [if_pos hlen] at h
            exact absurd (congrArg Prod.snd h) (by simp)
          · rw [if_neg hlen] at h
            rcases hproc : process_answers_from 0 auto answers with e | pa <;>
              rw [hproc] at h
            · exact absurd (congrArg Prod.snd h) (by simp)
            · dsimp only at h
              rcases hai : ai with e | ai0 <;> rw [hai] at h
              · exact absurd (congrArg Prod.snd h) (by simp)
              · dsimp only at h
                by_cases hz : ai0.score = none ∧ quiz.questions.length = 0
                · rw [if_pos hz] at h
                  exact absurd (congrArg Prod.snd h) (by simp)
                · rw [if_neg hz] at h
                  have h1 := congrArg Prod.fst h
                  dsimp only at h1
                  intro answers2 ts2 auto2 ai2 now2
                  rw [← h1]
                  refine submit_after_update db qid quiz uid hfind
                    (not_ne_iff.mp howner) _ ?_ ?_ ?_ answers2 ts2 auto2 ai2 now2
                  · intro x; rfl
                  · intro x; rfl
                  · intro x; rfl

/-- Claim C3: for an owned, still-active quiz, a submission whose answer
list length differs from the stored `totalQuestions`, or that contains
an answer outside the accepted index range, is rejected with 400 and the
stored quiz is unchanged. -/
theorem invalid_quiz_submission_rejected :
    ∀ db qid answers ts uid auto ai now quiz,
      db.find? (fun q => q.id = qid) = some quiz →
      quiz.userId = uid →
      ¬ (quiz.status = "completed" ∨ quiz.status = "auto_submitted") →
      ((answers.length ≠ quiz.totalQuestions →
        submit_quiz_service db qid answers ts uid auto ai now
          = (db, .error ⟨400, "Invalid number of answers. Expected " ++
              toString quiz.totalQuestions ++ ", got " ++
              toString answers.length⟩)) ∧
       ((∃ i, i < answers.length ∧ answer_invalid auto (answers.getD i none)) →
        ∃ msg, submit_quiz_service db qid answers ts uid auto ai now
          = (db, .error ⟨400, msg⟩))) := by
  intro db qid answers ts uid auto ai now quiz hfind howner hstat
  constructor
  · intro hlen
    unfold submit_quiz_service
    rw [hfind]
    dsimp only
    rw [if_neg (by simp [howner])]
    rw [if_neg hstat]
    rw [if_pos hlen]
  · intro hex
    by_cases hlen : answers.length ≠ quiz.totalQuestions
    · refine ⟨"Invalid number of answers. Expected " ++
        toString quiz.totalQuestions ++ ", got " ++ toString answers.length, ?_⟩
      unfold submit_quiz_service
      rw [hfind]
      dsimp only
      rw [if_neg (by simp [howner])]
      rw [if_neg hstat]
      rw [if_pos hlen]
    · obtain ⟨msg, hp⟩ := process_answers_invalid auto 0 answers hex
      refine ⟨msg, ?_⟩
      unfold submit_quiz_service
      rw [hfind]
      dsimp only
      rw [if_neg (by simp [howner])]
      rw [if_neg hstat]
      rw [if_neg hlen]
      rw [hp]

/-- An already-completed quiz owned by user 9. -/
def c2quiz : QuizDoc :=
  ⟨7, 1, 9, [goodQ], 1, 180, 180, ⟨"SWE", 2, "arrays"⟩, "completed",
    some 1, some 5, some 9, [some 2], [some 0], 0, some 100, [], some "",
    some 5, some "manual", 0⟩

/-- Witness for C2: resubmitting the completed quiz is rejected with the
store unchanged. -/
theorem quiz_submitted_at_most_once_witness :
    submit_quiz_service [c2quiz] 7 [some 1] 3 9 false (.error "down") 50
      = ([c2quiz], .error ⟨400, "Quiz already submitted"⟩) :=
  quiz_submitted_at_most_once.1 [c2quiz] 7 [some 1] 3 9 false (.error "down")
    50 c2quiz rfl rfl (Or.inl rfl)

/-- A still-active quiz owned by user 9 with one question. -/
def c3quiz : QuizDoc :=
  ⟨8, 1, 9, [goodQ], 1, 180, 180, ⟨"SWE", 2, "arrays"⟩, "active", none,
    none, none, [none], [some 0], 0, none, [], none, none, none, 0⟩

/-- Witness for C3: an answer index of 5 is rejected with a 400 and the
store unchanged. -/
theorem invalid_quiz_submission_rejected_witness :
    ∃ msg, submit_quiz_service [c3quiz] 8 [some 5] 3 9 false (.error "down") 50
      = ([c3quiz], .error ⟨400, msg⟩) :=
  (invalid_quiz_submission_rejected [c3quiz] 8 [some 5] 3 9 false
      (.error "down") 50 c3quiz rfl rfl (by decide)).2
    ⟨0, by decide, by
      show ¬ ((-1 : Int) ≤ 5 ∧ (5 : Int) ≤ 3)
      decide⟩
